import Mathlib

/-!
# Model Scout MCP — verification of the consideration engine

A shallow embedding of the Model-Scout MCP server (`index.js`). The server
fetches a catalog of raw model records from the OpenRouter API, caches it for
ten minutes, and answers two operations: `get_model` (direct lookup) and
`consider_models` (filter / search / rank / cost-project / compare).

Modelling conventions:
* JS numbers are modelled as `ℚ`.
* A raw upstream price field is a decimal-encoded string.  In the main
  pipeline we represent a present, non-empty price string by its parsed
  rational value (`Option ℚ`, `none` = field absent or empty string); the
  string level of `parsePrice` / `parseFloat` (including the NaN result on
  unparsable text) is modelled separately (`parsePriceJs`) for the
  normalizer claims.
* JS `undefined` is `Option.none`; JS truthiness of a numeric value `o` is
  `o ≠ none ∧ o ≠ some 0`.
* A thrown JS exception is `Except.error`; the API constants
  (`api_endpoint`, `api_format`) and decimal string rendering
  (`toFixed`, `toISOString`, `toLocaleString`) are kept as the underlying
  numeric values.
-/

namespace ModelScout

/-- Raw upstream pricing object (OpenRouter shape): only string-encoded
per-token decimal fields.  `none` models an absent field or an empty
string (both falsy in JS); `some q` models a present, non-empty decimal
string with value `q`. -/
structure RawPricing where
  prompt : Option ℚ
  completion : Option ℚ
  request : Option ℚ
  image : Option ℚ
  web_search : Option ℚ
  internal_reasoning : Option ℚ
  input_cache_read : Option ℚ
deriving DecidableEq

/-- Raw `architecture` sub-object. -/
structure Architecture where
  modality : Option String
  input_modalities : Option (List String)
  output_modalities : Option (List String)
deriving DecidableEq

/-- Raw `top_provider` sub-object. -/
structure TopProvider where
  max_completion_tokens : Option ℚ
  is_moderated : Option Bool
deriving DecidableEq

/-- One raw upstream catalog record, as returned under the API's `data` key. -/
structure RawModel where
  id : String
  canonical_slug : String
  name : String
  description : String
  context_length : ℚ
  created : ℚ
  architecture : Option Architecture
  top_provider : Option TopProvider
  pricing : RawPricing
  supported_parameters : Option (List String)
  hugging_face_id : Option String
deriving DecidableEq

/-- `parsePrice(priceStr)`: `priceStr ? parseFloat(priceStr) : 0` applied to the
value-level representation of a price string — an absent or empty (falsy)
field is 0, a present one is its parsed value. -/
def parsePrice : Option ℚ → ℚ
  | none => 0
  | some q => q

/-- `extractProvider(modelId)`: `modelId.split('/')[0] || ''` — the prefix of
the id before the first `/` (the whole id when there is no `/`), with the
falsy empty-prefix case mapped to `''` by `|| ''`. -/
def extractProvider (modelId : String) : String :=
  let first := String.mk (modelId.toList.takeWhile (fun c => c != '/'))
  if first = "" then "" else first

/-- `isFree(pricing)`: both the prompt and the completion price parse to 0. -/
def isFree (pricing : RawPricing) : Bool :=
  decide (parsePrice pricing.prompt = 0) && decide (parsePrice pricing.completion = 0)

/-- JS `a?.b` for the input-modalities chain. -/
def RawModel.inputModalities (m : RawModel) : Option (List String) :=
  m.architecture.bind (fun a => a.input_modalities)

/-- `model.architecture?.input_modalities?.includes(tag)`, where reading
through an absent link yields `undefined`, which is falsy. -/
def RawModel.hasInputModality (m : RawModel) (tag : String) : Bool :=
  match m.inputModalities with
  | none => false
  | some l => l.contains tag

/-- `model.supported_parameters?.includes(p)`. -/
def RawModel.supportsParam (m : RawModel) (p : String) : Bool :=
  match m.supported_parameters with
  | none => false
  | some l => l.contains p

/-- `getCapabilities(model)`: capability tags pushed in source order.  Takes
the two fields the source reads so that it also covers the reconstructed
object built in the `consider_models` response
(`\x7b architecture: \x7b input_modalities \x7d, supported_parameters \x7d`). -/
def getCapabilities (inputModalities : Option (List String))
    (supportedParameters : Option (List String)) : List String :=
  (if (inputModalities.getD []).contains "image" then ["vision"] else []) ++
  (if 1 < (inputModalities.getD []).length then ["multimodal"] else []) ++
  (if (supportedParameters.getD []).contains "tools" then ["tools"] else []) ++
  (if (supportedParameters.getD []).contains "reasoning" then ["reasoning"] else []) ++
  (if (supportedParameters.getD []).contains "structured_outputs" then ["structured_outputs"] else [])

/-- Formatted (normalized) pricing block produced by `formatModelData`. -/
structure FormattedPricing where
  prompt : ℚ
  completion : ℚ
  prompt_per_1m : ℚ
  completion_per_1m : ℚ
  total_per_1m : ℚ
  request : Option ℚ
  image : Option ℚ
  web_search : Option ℚ
  internal_reasoning : Option ℚ
  has_caching : Bool
  cache_read_per_1m : Option ℚ
deriving DecidableEq

/-- Normalized model record produced by `formatModelData` (the constant
`api_endpoint` / `api_format` fields are elided; `created` keeps the raw
instant instead of its ISO rendering). -/
structure FormattedModel where
  id : String
  canonical_slug : String
  name : String
  provider : String
  hugging_face_id : Option String
  context_length : ℚ
  max_completion_tokens : Option ℚ
  created : ℚ
  description : String
  modality : Option String
  input_modalities : List String
  output_modalities : List String
  supported_parameters : List String
  pricing : FormattedPricing
  is_moderated : Bool
  is_free : Bool
deriving DecidableEq

/-- JS `x || undefined` on a possibly-absent number: 0 (falsy) also maps to
`undefined`. -/
def jsNumOrUndefined : Option ℚ → Option ℚ
  | none => none
  | some q => if q = 0 then none else some q

/-- JS `s || undefined` on a possibly-absent string: the empty string (falsy)
also maps to `undefined`. -/
def jsStrOrUndefined : Option String → Option String
  | none => none
  | some s => if s = "" then none else some s

/-- `formatModelData(model)`: the record normalizer. -/
def formatModelData (model : RawModel) : FormattedModel :=
  let promptPrice := parsePrice model.pricing.prompt
  let completionPrice := parsePrice model.pricing.completion
  { id := model.id
    canonical_slug := model.canonical_slug
    name := model.name
    provider := extractProvider model.id
    hugging_face_id := jsStrOrUndefined model.hugging_face_id
    context_length := model.context_length
    max_completion_tokens :=
      jsNumOrUndefined (model.top_provider.bind (fun tp => tp.max_completion_tokens))
    created := model.created
    description := model.description
    modality := model.architecture.bind (fun a => a.modality)
    input_modalities := model.inputModalities.getD []
    output_modalities := (model.architecture.bind (fun a => a.output_modalities)).getD []
    supported_parameters := model.supported_parameters.getD []
    pricing :=
      { prompt := promptPrice
        completion := completionPrice
        prompt_per_1m := promptPrice * 1000000
        completion_per_1m := completionPrice * 1000000
        total_per_1m := (promptPrice + completionPrice) * 1000000
        request := jsNumOrUndefined (some (parsePrice model.pricing.request))
        image := jsNumOrUndefined (some (parsePrice model.pricing.image))
        web_search := jsNumOrUndefined (some (parsePrice model.pricing.web_search))
        internal_reasoning := jsNumOrUndefined (some (parsePrice model.pricing.internal_reasoning))
        has_caching := model.pricing.input_cache_read.isSome
        cache_read_per_1m := model.pricing.input_cache_read.map (fun q => q * 1000000) }
    is_moderated := (model.top_provider.bind (fun tp => tp.is_moderated)).getD false
    is_free := isFree model.pricing }

/-- Whether `sub` occurs as a contiguous sublist of `s`. -/
def listContainsInfix (sub : List Char) : List Char → Bool
  | [] => sub.isEmpty
  | c :: rest => sub.isPrefixOf (c :: rest) || listContainsInfix sub rest

/-- JS `s.includes(sub)`: substring containment. -/
def strIncludes (s sub : String) : Bool :=
  listContainsInfix sub.toList s.toList

/-- JS `s.toLowerCase()`, modelled character-wise (the catalog data is
ASCII). -/
def strToLower (s : String) : String :=
  String.mk (s.data.map Char.toLower)

/-- The disjunction of the four lookup criteria `getModel` tests on one
record: exact id, exact canonical slug, case-insensitive id,
substring-of-display-name. -/
def matchesLookup (m : RawModel) (modelId : String) : Bool :=
  m.id == modelId ||
  m.canonical_slug == modelId ||
  strToLower m.id == strToLower modelId ||
  strIncludes (strToLower m.name) (strToLower modelId)

/-- `getModel(modelId)` on an already-fetched snapshot:
`models.find(m => ...)` — the first record matching any criterion; `none`
models the `Model not found` throw. -/
def getModel (models : List RawModel) (modelId : String) : Option RawModel :=
  models.find? (fun m => matchesLookup m modelId)

/-- Structured filter set.  `none` = key absent.  A provider filter is
normalized to a list by `Array.isArray(filters.provider) ? ... : [...]`. -/
structure Filters where
  provider : Option (List String)
  free_only : Option Bool
  min_context : Option ℚ
  max_context : Option ℚ
  max_price_per_1m : Option ℚ
  has_vision : Option Bool
  has_tools : Option Bool
  has_reasoning : Option Bool
  modality : Option String
deriving DecidableEq

/-- JS truthiness of a possibly-absent number: `undefined` and `0` are falsy. -/
def numTruthy (o : Option ℚ) : Bool :=
  match o with
  | none => false
  | some q => decide (q ≠ 0)

/-- Raw total price per million tokens, as recomputed inline by the
`max_price_per_1m` filter, `sortModels('price')` and the comparison summary. -/
def rawTotal (m : RawModel) : ℚ :=
  parsePrice m.pricing.prompt + parsePrice m.pricing.completion

/-- `applyFilters(models, filters)`: each present (truthy) field filters the
list; the steps are applied in source order. -/
def applyFilters (models : List RawModel) (f : Filters) : List RawModel :=
  let s1 := match f.provider with
    | none => models
    | some ps => models.filter (fun m =>
        ps.any (fun p => strToLower (extractProvider m.id) == strToLower p))
  let s2 := if f.free_only.getD false then s1.filter (fun m => isFree m.pricing) else s1
  let s3 := if numTruthy f.min_context then
      s2.filter (fun m => decide (f.min_context.getD 0 ≤ m.context_length)) else s2
  let s4 := if numTruthy f.max_context then
      s3.filter (fun m => decide (m.context_length ≤ f.max_context.getD 0)) else s3
  let s5 := if numTruthy f.max_price_per_1m then
      s4.filter (fun m => decide (rawTotal m * 1000000 ≤ f.max_price_per_1m.getD 0)) else s4
  let s6 := if f.has_vision.getD false then
      s5.filter (fun m => m.hasInputModality "image") else s5
  let s7 := if f.has_tools.getD false then
      s6.filter (fun m => m.supportsParam "tools") else s6
  let s8 := if f.has_reasoning.getD false then
      s7.filter (fun m => m.supportsParam "reasoning") else s7
  match f.modality with
  | none => s8
  | some md =>
      if md = "" then s8
      else s8.filter (fun m => (m.architecture.bind (fun a => a.modality)) == some md)

/-- Parsed intent derived from the free-text request. -/
structure Intent where
  filters : Filters
  search_terms : List String
  sort_preference : String
  understood_as : String
deriving DecidableEq

/-- Provider/family keywords scanned by the intent parser, in source order. -/
def providerKeywords : List String :=
  ["openai", "anthropic", "claude", "gpt", "meta", "llama", "google", "gemini"]

/-- `parseRequest(request)`: keyword-driven intent parsing.  Each rule of the
source mutates the intent in sequence; the final state is assembled here
(`understood_as` and `sort_preference` reflect the last writer). -/
def parseRequest (request : String) : Intent :=
  let lower := strToLower request
  let has := fun (t : String) => strIncludes lower t
  let costHit := has "cheap" || has "affordable" || has "low cost"
  let freeHit := has "free"
  let visionHit := has "vision" || has "image" || has "multimodal"
  let toolsHit := has "tool" || has "function"
  let reasoningHit := has "reasoning" || has "think"
  let longCtxHit := has "long context" || has "large context"
  { filters :=
      { provider := none
        free_only := if freeHit then some true else none
        min_context := if longCtxHit then some 100000 else none
        max_context := none
        max_price_per_1m := none
        has_vision := if visionHit then some true else none
        has_tools := if toolsHit then some true else none
        has_reasoning := if reasoningHit then some true else none
        modality := none }
    search_terms :=
      (if visionHit then ["vision", "multimodal"] else []) ++
      (if toolsHit then ["tools", "function"] else []) ++
      (if reasoningHit then ["reasoning"] else []) ++
      (if has "instruct" then ["instruct"] else []) ++
      (if has "chat" then ["chat"] else []) ++
      providerKeywords.filter (fun p => has p)
    sort_preference :=
      if longCtxHit then "context" else if costHit then "price" else "relevance"
    understood_as :=
      if freeHit then "free models only"
      else if costHit then "cost-optimized search" else "" }

/-- The searchable text of one record:
``` `${model.name} ${model.description} ${model.id}`.toLowerCase() ```. -/
def searchText (m : RawModel) : String :=
  strToLower (m.name ++ " " ++ m.description ++ " " ++ m.id)

/-- Whether one search term occurs (case-insensitively) in a record's
searchable text. -/
def termOccurs (m : RawModel) (t : String) : Bool :=
  strIncludes (searchText m) (strToLower t)

/-- The score loop of `searchModels`: `score += 1` for every term of the list
found in the searchable text (terms counted with multiplicity). -/
def searchScore (m : RawModel) (terms : List String) : ℕ :=
  terms.countP (fun t => termOccurs m t)

/-- `searchModels(models, searchTerms)`: with no terms every record scores 1;
otherwise records are scored and the zero-scored ones dropped. -/
def searchModels (models : List RawModel) (terms : List String) :
    List (RawModel × ℕ) :=
  if terms.isEmpty then models.map (fun m => (m, 1))
  else (models.map (fun m => (m, searchScore m terms))).filter (fun p => 0 < p.2)

/-- Cost-projection workload; every field is optional. -/
structure Workload where
  prompt_tokens : Option ℚ
  completion_tokens : Option ℚ
  requests_per_day : Option ℚ
  requests_per_month : Option ℚ
  images : Option ℚ
deriving DecidableEq

/-- The `breakdown` object assembled by `calculateCost`; `none` = key never
written. -/
structure CostBreakdown where
  prompt_cost : Option ℚ
  completion_cost : Option ℚ
  daily_request_cost : Option ℚ
  monthly_request_cost : Option ℚ
  image_cost : Option ℚ
deriving DecidableEq

/-- Return value of `calculateCost`. -/
structure CostEstimate where
  total : ℚ
  breakdown : CostBreakdown
  daily : Option ℚ
  monthly : Option ℚ
  per_request : Option ℚ
deriving DecidableEq

/-- `calculateCost(model, workload)` on a formatted record: truthy workload
fields contribute a breakdown component and are accumulated into `total`;
when `requests_per_day` is truthy a derived `monthly_request_cost`
(daily × 30) is also written to the breakdown (overwritten by the
`requests_per_month` branch when that is truthy too) without being added to
`total`.  `per_request` divides by `requests_per_day` when that is truthy,
else by `requests_per_month / 30`, and is `undefined` when neither request
count is truthy. -/
def calculateCost (model : FormattedModel) (w : Workload) : CostEstimate :=
  let promptCost := if numTruthy w.prompt_tokens then
      some (model.pricing.prompt * w.prompt_tokens.getD 0) else none
  let completionCost := if numTruthy w.completion_tokens then
      some (model.pricing.completion * w.completion_tokens.getD 0) else none
  let requestFee := parsePrice model.pricing.request
  let dailyRequestCost := if numTruthy w.requests_per_day then
      some (requestFee * w.requests_per_day.getD 0) else none
  let monthlyRequestCost :=
    if numTruthy w.requests_per_month then
      some (requestFee * w.requests_per_month.getD 0)
    else if numTruthy w.requests_per_day then
      some (requestFee * w.requests_per_day.getD 0 * 30)
    else none
  let imageCost := if numTruthy w.images then
      some (parsePrice model.pricing.image * w.images.getD 0) else none
  let totalCost :=
    promptCost.getD 0 + completionCost.getD 0 + dailyRequestCost.getD 0 +
    (if numTruthy w.requests_per_month then requestFee * w.requests_per_month.getD 0 else 0) +
    imageCost.getD 0
  { total := totalCost
    breakdown :=
      { prompt_cost := promptCost
        completion_cost := completionCost
        daily_request_cost := dailyRequestCost
        monthly_request_cost := monthlyRequestCost
        image_cost := imageCost }
    daily := if numTruthy w.requests_per_day then some totalCost else none
    monthly :=
      if numTruthy w.requests_per_day then some (totalCost * 30)
      else if numTruthy w.requests_per_month then some totalCost
      else none
    per_request :=
      if numTruthy w.requests_per_day || numTruthy w.requests_per_month then
        some (totalCost /
          (if numTruthy w.requests_per_day then w.requests_per_day.getD 0
           else w.requests_per_month.getD 0 / 30))
      else none }

instance : DecidableRel (fun a b : RawModel => rawTotal a ≤ rawTotal b) :=
  fun a b => inferInstanceAs (Decidable (rawTotal a ≤ rawTotal b))

instance : DecidableRel (fun a b : RawModel => b.context_length ≤ a.context_length) :=
  fun a b => inferInstanceAs (Decidable (b.context_length ≤ a.context_length))

instance : DecidableRel (fun a b : RawModel => b.created ≤ a.created) :=
  fun a b => inferInstanceAs (Decidable (b.created ≤ a.created))

instance : DecidableRel (fun a b : RawModel => a.name ≤ b.name) :=
  fun a b => inferInstanceAs (Decidable (a.name ≤ b.name))

/-- `sortModels(models, sortBy)`.  `Array.prototype.sort` is a stable sort
driven by a numeric comparator; each branch is modelled as the stable
`insertionSort` under the corresponding total preorder (`price`: ascending
total per-token price; `context` / `created`: descending; `name`:
ascending lexicographic for `localeCompare`).  Any other criterion keeps
the incoming order. -/
def sortModels (models : List RawModel) (sortBy : String) : List RawModel :=
  if sortBy = "price" then
    models.insertionSort (fun a b => rawTotal a ≤ rawTotal b)
  else if sortBy = "context" then
    models.insertionSort (fun a b => b.context_length ≤ a.context_length)
  else if sortBy = "created" then
    models.insertionSort (fun a b => b.created ≤ a.created)
  else if sortBy = "name" then
    models.insertionSort (fun a b => a.name ≤ b.name)
  else models

/-- A thrown JS exception. -/
inductive JsError where
  | typeError (msg : String)
  | upstreamError (status : ℕ)
  | transportError
deriving DecidableEq

/-- Message of the TypeError thrown by `[].reduce(f)` with no initial value. -/
def reduceEmptyMsg : String := "Reduce of empty array with no initial value"

/-- Message of the TypeError thrown by `undefined.toFixed(2)`. -/
def toFixedUndefinedMsg : String := "Cannot read properties of undefined (reading toFixed)"

/-- JS `Array.prototype.reduce(f)` with no initial value: `none` models the
TypeError on an empty array. -/
def jsReduce1 (f : α → α → α) : List α → Option α
  | [] => none
  | x :: xs => some (xs.foldl f x)

/-- JS `x.toFixed(2)` where `x` may be `undefined`: throws a TypeError when
it is (decimal rendering itself is not modelled). -/
def jsToFixed (x : Option ℚ) : Except JsError ℚ :=
  match x with
  | none => Except.error (JsError.typeError toFixedUndefinedMsg)
  | some q => Except.ok q

/-- JS property read `pricing.prompt_per_1m` on a RAW upstream pricing
object.  The raw OpenRouter shape carries only the string-encoded per-token
fields (`prompt`, `completion`, ...); the per-1M fields exist only on
`formatModelData` output, so on a raw record this read yields `undefined`. -/
def RawPricing.promptPer1mRead (_ : RawPricing) : Option ℚ := none

/-- JS property read `pricing.completion_per_1m` on a raw pricing object:
`undefined` (see `RawPricing.promptPer1mRead`). -/
def RawPricing.completionPer1mRead (_ : RawPricing) : Option ℚ := none

/-- JS property read `pricing.total_per_1m` on a raw pricing object:
`undefined` (see `RawPricing.promptPer1mRead`). -/
def RawPricing.totalPer1mRead (_ : RawPricing) : Option ℚ := none

/-- One row of the comparison pricing table:
`[m.name, m.pricing.prompt_per_1m.toFixed(2), ...]` evaluated on a raw
record, so each `.toFixed(2)` call receives `undefined` and throws. -/
def pricingRow (m : RawModel) : Except JsError (String × ℚ × ℚ × ℚ) := do
  let p ← jsToFixed m.pricing.promptPer1mRead
  let c ← jsToFixed m.pricing.completionPer1mRead
  let t ← jsToFixed m.pricing.totalPer1mRead
  pure (m.name, p, c, t)

/-- `(m.supported_parameters?.length || 0)`. -/
def paramCount (m : RawModel) : ℕ :=
  (m.supported_parameters.getD []).length

/-- Result of `generateComparison` (table cells keep their underlying
values; `✓`/`✗` cells are booleans). -/
structure Comparison where
  pricing_rows : List (String × ℚ × ℚ × ℚ)
  capabilities_rows : List (String × ℚ × Bool × Bool × Bool)
  cost_rows : Option (List (String × ℚ × Option ℚ))
  cost_cheapest : Option String
  summary_cheapest : String
  summary_highest_context : String
  summary_most_capable : String
deriving DecidableEq

/-- `generateComparison(models, workload)`: builds the pricing table (whose
rows read per-1M fields that are absent on the raw records it is given),
the capabilities table, the optional workload cost table, and the summary
computed by unseeded `reduce` scans. -/
def generateComparison (models : List RawModel) (workload : Option Workload) :
    Except JsError Comparison := do
  let pricingRows ← models.mapM pricingRow
  let capRows := models.map (fun m =>
    (m.name, m.context_length, m.hasInputModality "image",
     m.supportsParam "tools", m.supportsParam "reasoning"))
  let costBlock ← match workload with
    | none => pure none
    | some w => do
        let costs := models.map (fun m => (m, calculateCost (formatModelData m) w))
        let rows := costs.map (fun mc => (mc.1.name, mc.2.total, mc.2.per_request))
        match jsReduce1 (fun mn cu => if cu.2.total < mn.2.total then cu else mn) costs with
        | none => Except.error (JsError.typeError reduceEmptyMsg)
        | some ch => pure (some (rows, ch.1.id))
  let cheapest ← match jsReduce1
      (fun mn cu => if rawTotal cu < rawTotal mn then cu else mn) models with
    | none => Except.error (JsError.typeError reduceEmptyMsg)
    | some m => pure m
  let highest ← match jsReduce1
      (fun mx cu => if mx.context_length < cu.context_length then cu else mx) models with
    | none => Except.error (JsError.typeError reduceEmptyMsg)
    | some m => pure m
  let capable ← match jsReduce1
      (fun mx cu => if paramCount mx < paramCount cu then cu else mx) models with
    | none => Except.error (JsError.typeError reduceEmptyMsg)
    | some m => pure m
  pure
    { pricing_rows := pricingRows
      capabilities_rows := capRows
      cost_rows := costBlock.map (fun cb => cb.1)
      cost_cheapest := costBlock.map (fun cb => cb.2)
      summary_cheapest := cheapest.id
      summary_highest_context := highest.id
      summary_most_capable := capable.id }

/-- The module-level `modelsCache` object. -/
structure ModelsCache where
  data : Option (List RawModel)
  timestamp : Option ℤ
deriving DecidableEq

/-- `CACHE_DURATION_MS = 10 * 60 * 1000`. -/
def CACHE_DURATION_MS : ℤ := 10 * 60 * 1000

/-- Successful return value of `fetchModels`. -/
structure FetchSuccess where
  models : List RawModel
  cache_age : ℤ
  cached : Bool
deriving DecidableEq

/-- Outcome of the single upstream `fetch` call, were it performed:
a parsed `data` array, a non-success HTTP status, or a transport failure
(rejected promise). -/
inductive UpstreamOutcome where
  | ok (models : List RawModel)
  | httpError (status : ℕ)
  | transportError
deriving DecidableEq

/-- `fetchModels(forceRefresh)` with the module state and clock passed
explicitly.  The cached snapshot is returned when `forceRefresh` is false,
both cache fields are truthy, and the age is strictly below the TTL
(`cache_age` is `Math.floor(age / 1000)`); otherwise exactly one upstream
fetch happens: on success the snapshot is replaced wholesale, on a
non-success status or transport failure the error propagates and the
state stays untouched. -/
def fetchModels (cache : ModelsCache) (forceRefresh : Bool) (now : ℤ)
    (upstream : UpstreamOutcome) : Except JsError (FetchSuccess × ModelsCache) :=
  let cachedResult : Option FetchSuccess :=
    if forceRefresh then none
    else match cache.data, cache.timestamp with
      | some data, some ts =>
          if ts ≠ 0 ∧ now - ts < CACHE_DURATION_MS then
            some { models := data, cache_age := Int.fdiv (now - ts) 1000, cached := true }
          else none
      | _, _ => none
  match cachedResult with
  | some r => Except.ok (r, cache)
  | none =>
      match upstream with
      | UpstreamOutcome.ok ms =>
          Except.ok ({ models := ms, cache_age := 0, cached := false },
                     { data := some ms, timestamp := some now })
      | UpstreamOutcome.httpError s => Except.error (JsError.upstreamError s)
      | UpstreamOutcome.transportError => Except.error JsError.transportError

/-- Field-level semantics of the spread merge
`\x7b ...intent.filters, ...params.filters \x7d`: a key present in the
explicit filters wins. -/
def overrideField (base over : Option α) : Option α :=
  match over with
  | some v => some v
  | none => base

/-- `\x7b ...intent.filters, ...params.filters \x7d`. -/
def mergeFilters (base over : Filters) : Filters :=
  { provider := overrideField base.provider over.provider
    free_only := overrideField base.free_only over.free_only
    min_context := overrideField base.min_context over.min_context
    max_context := overrideField base.max_context over.max_context
    max_price_per_1m := overrideField base.max_price_per_1m over.max_price_per_1m
    has_vision := overrideField base.has_vision over.has_vision
    has_tools := overrideField base.has_tools over.has_tools
    has_reasoning := overrideField base.has_reasoning over.has_reasoning
    modality := overrideField base.modality over.modality }

/-- Parameters of the `consider_models` tool (an absent `model_ids` array is
`[]`, an absent `filters` object is the all-`none` record — both behave
identically to the JS absence checks). -/
structure ConsiderParams where
  request : String
  filters : Filters
  model_ids : List String
  workload : Option Workload
  max_results : Option ℚ
  sort_by : Option String
  force_refresh : Bool
deriving DecidableEq

/-- One entry of the `models` array assembled in the response. -/
structure ResponseModel where
  id : String
  name : String
  provider : String
  context_length : ℚ
  prompt_per_1m : ℚ
  completion_per_1m : ℚ
  total_per_1m : ℚ
  capabilities : List String
  is_free : Bool
  estimated_cost : Option CostEstimate
deriving DecidableEq

/-- The `cost_analysis` block. -/
structure CostAnalysis where
  cheapest_id : String
  cheapest_cost : ℚ
  most_expensive_id : String
  most_expensive_cost : ℚ
  potential_savings : ℚ
deriving DecidableEq

/-- The `consider_models` response. -/
structure ConsiderResponse where
  understood_as : String
  applied_filters : Filters
  search_strategy : String
  search_terms : List String
  models : List ResponseModel
  total_models_found : ℕ
  models_returned : ℕ
  cache_age : Option ℕ
  comparison : Option Comparison
  cost_analysis : Option CostAnalysis
deriving DecidableEq

instance : DecidableRel (fun a b : RawModel × ℕ => b.2 ≤ a.2) :=
  fun a b => inferInstanceAs (Decidable (b.2 ≤ a.2))

instance : DecidableRel (fun a b : String × ℚ => a.2 ≤ b.2) :=
  fun a b => inferInstanceAs (Decidable (a.2 ≤ b.2))

/-- `params.sort_by || intent.sort_preference || 'relevance'` (an empty
string is falsy). -/
def chooseSortBy (explicitSort : Option String) (intentSort : String) : String :=
  match explicitSort with
  | some s => if s = "" then (if intentSort = "" then "relevance" else intentSort) else s
  | none => if intentSort = "" then "relevance" else intentSort

/-- `considerModels(params)` after a successful snapshot acquisition
(`rawModels`, `cacheAge`, `cached` are `fetchModels`'s results; its failure
would already have propagated).  Follows the source step by step: intent
parsing, filter merge and application, restriction to explicit
`model_ids`, keyword search with stable descending score sort, criterion
sort, formatting, per-record cost estimates, truncation to `max_results`
(`|| 10`), response assembly, the comparison block when more than one
model id was supplied, and the cost-analysis block when a workload was. -/
def considerModelsCore (rawModels : List RawModel) (cacheAge : ℕ) (cached : Bool)
    (params : ConsiderParams) : Except JsError ConsiderResponse := do
  let intent := parseRequest params.request
  let combinedFilters := mergeFilters intent.filters params.filters
  let filtered0 := applyFilters rawModels combinedFilters
  let filtered := if 0 < params.model_ids.length then
      filtered0.filter (fun m => params.model_ids.any (fun i =>
        m.id == i || m.canonical_slug == i || strToLower m.id == strToLower i))
    else filtered0
  let searchResults := if 0 < intent.search_terms.length then
      ((searchModels filtered intent.search_terms).insertionSort
        (fun a b => b.2 ≤ a.2)).map (fun s => s.1)
    else filtered
  let sortBy := chooseSortBy params.sort_by intent.sort_preference
  let sorted := sortModels searchResults sortBy
  let formatted := (sorted.map formatModelData).map (fun f =>
      (f, params.workload.map (fun w => calculateCost f w)))
  let maxResults : ℕ := match params.max_results with
    | some q => if q ≠ 0 then q.floor.toNat else 10
    | none => 10
  let results := formatted.take maxResults
  let respModels := results.map (fun fc =>
    { id := fc.1.id
      name := fc.1.name
      provider := fc.1.provider
      context_length := fc.1.context_length
      prompt_per_1m := fc.1.pricing.prompt_per_1m
      completion_per_1m := fc.1.pricing.completion_per_1m
      total_per_1m := fc.1.pricing.total_per_1m
      capabilities := getCapabilities (some fc.1.input_modalities) (some fc.1.supported_parameters)
      is_free := fc.1.is_free
      estimated_cost := fc.2 : ResponseModel })
  let comparison ← if 1 < params.model_ids.length then do
      let cmp ← generateComparison (sorted.take params.model_ids.length) params.workload
      pure (some cmp)
    else pure none
  let costAnalysis : Option CostAnalysis :=
    if params.workload.isSome ∧ 0 < respModels.length then
      let costs := (respModels.filterMap (fun m =>
        m.estimated_cost.map (fun c => (m.id, c.total)))).insertionSort
          (fun a b => a.2 ≤ b.2)
      match costs, costs.getLast? with
      | ch :: _, some ex =>
          some { cheapest_id := ch.1, cheapest_cost := ch.2
                 most_expensive_id := ex.1, most_expensive_cost := ex.2
                 potential_savings := ex.2 - ch.2 }
      | _, _ => none
    else none
  pure
    { understood_as := if intent.understood_as = "" then "model listing" else intent.understood_as
      applied_filters := combinedFilters
      search_strategy := if 0 < intent.search_terms.length then "keyword search" else "filtered list"
      search_terms := intent.search_terms
      models := respModels
      total_models_found := formatted.length
      models_returned := respModels.length
      cache_age := if cached then some cacheAge else none
      comparison := comparison
      cost_analysis := costAnalysis }

/-- Numeric value of a run of decimal digit characters. -/
def digitsToNat (ds : List Char) : ℕ :=
  ds.foldl (fun a c => a * 10 + (c.toNat - 48)) 0

/-- Semantics of the JS builtin `parseFloat` on the characters following an
optional sign: the longest prefix of the form `digits [. digits]
[e|E [+|-] digits]` is converted; if neither an integer nor a fraction
digit is consumed the result is NaN (`none`).  (`Infinity` literals never
occur in this repository's data and are not modelled.) -/
def parseDecimal (cs : List Char) : Option ℚ :=
  let ip := cs.takeWhile Char.isDigit
  let r1 := cs.dropWhile Char.isDigit
  let fp := match r1 with
    | '.' :: rest => rest.takeWhile Char.isDigit
    | _ => []
  let r2 := match r1 with
    | '.' :: rest => rest.dropWhile Char.isDigit
    | _ => r1
  if ip.isEmpty ∧ fp.isEmpty then none
  else
    let mant : ℚ := (digitsToNat ip : ℚ) + (digitsToNat fp : ℚ) / ((10 : ℚ) ^ fp.length)
    let expDigits : Option (Bool × List Char) := match r2 with
      | 'e' :: '+' :: rest => some (false, rest.takeWhile Char.isDigit)
      | 'e' :: '-' :: rest => some (true, rest.takeWhile Char.isDigit)
      | 'e' :: rest => some (false, rest.takeWhile Char.isDigit)
      | 'E' :: '+' :: rest => some (false, rest.takeWhile Char.isDigit)
      | 'E' :: '-' :: rest => some (true, rest.takeWhile Char.isDigit)
      | 'E' :: rest => some (false, rest.takeWhile Char.isDigit)
      | _ => none
    match expDigits with
    | some (neg, ds) =>
        if ds.isEmpty then some mant
        else if neg then some (mant / ((10 : ℚ) ^ digitsToNat ds))
        else some (mant * ((10 : ℚ) ^ digitsToNat ds))
    | none => some mant

/-- JS whitespace skipped by `parseFloat`. -/
def isJsWhitespace (c : Char) : Bool :=
  c = ' ' || c = '\t' || c = '\n' || c = '\r'

/-- The JS builtin `parseFloat`: skip leading whitespace, read an optional
sign, then a decimal literal prefix; `none` models the NaN result. -/
def parseFloatJs (s : String) : Option ℚ :=
  match s.toList.dropWhile isJsWhitespace with
  | '+' :: rest => parseDecimal rest
  | '-' :: rest => (parseDecimal rest).map (fun q => -q)
  | cs => parseDecimal cs

/-- `parsePrice(priceStr)` at the string level:
`priceStr ? parseFloat(priceStr) : 0`.  An absent field or an empty string
is falsy and yields 0 without parsing; any other string is handed to
`parseFloat`, whose NaN result (`none`) propagates as a number, not as an
exception. -/
def parsePriceJs : Option String → Option ℚ
  | none => some 0
  | some s => if s = "" then some 0 else parseFloatJs s

/-! ### Concrete fixture data used by witnesses and counterexamples -/

/-- Pricing with only the prompt/completion strings present. -/
def pcPricing (p c : ℚ) : RawPricing :=
  { prompt := some p, completion := some c, request := none, image := none,
    web_search := none, internal_reasoning := none, input_cache_read := none }

/-- A minimal raw record. -/
def baseModel (id slug nm : String) : RawModel :=
  { id := id, canonical_slug := slug, name := nm, description := ""
    context_length := 0, created := 0, architecture := none, top_provider := none
    pricing := pcPricing 0 0, supported_parameters := none, hugging_face_id := none }

/-- Record whose display name contains `"x"` but whose ids do not match it. -/
def cexSubstring : RawModel := baseModel "other/model" "other" "The X Model"

/-- Record whose id is exactly `"x"`. -/
def cexExact : RawModel := baseModel "x" "x" "Model B"

/-- Record with a per-request fee of 1. -/
def cexFee : RawModel :=
  { baseModel "fee/model" "fee-model" "Fee Model" with
    pricing := { pcPricing 0 0 with request := some 1 } }

/-- Workload of 10 requests per day and nothing else. -/
def wDaily10 : Workload :=
  { prompt_tokens := none, completion_tokens := none, requests_per_day := some 10,
    requests_per_month := none, images := none }

/-- The all-absent structured filter object. -/
def noFilters : Filters :=
  { provider := none, free_only := none, min_context := none, max_context := none,
    max_price_per_1m := none, has_vision := none, has_tools := none,
    has_reasoning := none, modality := none }

/-- `consider_models` parameters supplying exactly one model id. -/
def paramsOneId : ConsiderParams :=
  { request := "", filters := noFilters, model_ids := ["x"], workload := none,
    max_results := none, sort_by := none, force_refresh := false }

/-- `consider_models` parameters supplying two model ids matching nothing. -/
def paramsTwoIds : ConsiderParams :=
  { request := "", filters := noFilters, model_ids := ["nope1", "nope2"],
    workload := none, max_results := none, sort_by := none, force_refresh := false }

/-- First record of a price tie (total per-token price 3). -/
def tieA : RawModel :=
  { baseModel "a/one" "a-one" "Tie A" with pricing := pcPricing 1 2 }

/-- Second record of the price tie (total per-token price also 3). -/
def tieB : RawModel :=
  { baseModel "b/two" "b-two" "Tie B" with pricing := pcPricing 2 1 }

/-- Six records, to probe the claimed upper comparison bound. -/
def sixModels : List RawModel :=
  [tieA, tieB, cexExact, cexSubstring, cexFee, baseModel "f/6" "f-6" "Six"]

/-- Sum of every component present in a cost breakdown. -/
def breakdownSum (b : CostBreakdown) : ℚ :=
  b.prompt_cost.getD 0 + b.completion_cost.getD 0 + b.daily_request_cost.getD 0 +
  b.monthly_request_cost.getD 0 + b.image_cost.getD 0

/-- The cache guard of `fetchModels` does not fire: the refresh is forced,
or no snapshot exists, or the snapshot timestamp is falsy or at least
TTL old. -/
def cacheMissOrForced (cache : ModelsCache) (force : Bool) (now : ℤ) : Prop :=
  force = true ∨ cache.data = none ∨ cache.timestamp = none ∨
    ∃ ts, cache.timestamp = some ts ∧ (ts = 0 ∨ CACHE_DURATION_MS ≤ now - ts)

/-! ## Theorems -/

/-- `List.find?` returns the first element satisfying the predicate: the list
decomposes around the result with an unsatisfying prefix. -/
theorem find?_some_decomp {α : Type} (p : α → Bool) :
    ∀ (l : List α) (a : α), l.find? p = some a →
      p a = true ∧ ∃ l₁ l₂, l = l₁ ++ a :: l₂ ∧ ∀ x ∈ l₁, p x = false := by
  intro l
  induction l with
  | nil => intro a h; simp at h
  | cons x xs ih =>
      intro a h
      by_cases hx : p x
      · rw [List.find?_cons_of_pos _ hx] at h
        cases h
        exact ⟨hx, [], xs, rfl, by simp⟩
      · rw [List.find?_cons_of_neg _ hx] at h
        obtain ⟨hpa, l₁, l₂, hdecomp, hl₁⟩ := ih a h
        refine ⟨hpa, x :: l₁, l₂, by rw [hdecomp, List.cons_append], ?_⟩
        intro y hy
        rcases List.mem_cons.mp hy with rfl | hy
        · exact Bool.eq_false_iff.mpr hx
        · exact hl₁ y hy

/-- C1 (counterexample): with a snapshot whose first record matches the
identifier `"x"` only as a display-name substring and whose second record
has exactly the id `"x"`, `getModel` returns the first record, not the
exact-id match the claimed cross-record priority order would require. -/
theorem getModel_priority_cex :
    getModel [cexSubstring, cexExact] "x" = some cexSubstring ∧
    cexExact.id = "x" ∧
    cexSubstring.id ≠ "x" ∧
    cexSubstring.canonical_slug ≠ "x" ∧
    strToLower cexSubstring.id ≠ strToLower "x" := by
  refine ⟨?_, rfl, by decide, by decide, by decide⟩
  rfl

/-- C1 (amended): `getModel` returns the first record in snapshot order that
matches ANY of the four criteria (exact id, exact canonical slug,
case-insensitive id, substring of display name), with no cross-record
priority between the criteria, and fails with `ModelNotFound` exactly when
no record matches any of them. -/
theorem getModel_first_disjunctive_match (models : List RawModel) (modelId : String) :
    (getModel models modelId = none ↔ ∀ m ∈ models, matchesLookup m modelId = false) ∧
    (∀ m, getModel models modelId = some m →
      matchesLookup m modelId = true ∧
      ∃ l₁ l₂, models = l₁ ++ m :: l₂ ∧ ∀ x ∈ l₁, matchesLookup x modelId = false) := by
  constructor
  · unfold getModel
    rw [List.find?_eq_none]
    constructor
    · intro h m hm; exact Bool.eq_false_iff.mpr (h m hm)
    · intro h m hm; exact Bool.eq_false_iff.mp (h m hm)
  · intro m hm
    exact find?_some_decomp _ models m hm

/-- C1 (witness): the amended characterization applied to a concrete
snapshot and identifier. -/
theorem getModel_first_disjunctive_match_witness :
    matchesLookup cexSubstring "x" = true ∧
    ∃ l₁ l₂, [cexSubstring, cexExact] = l₁ ++ cexSubstring :: l₂ ∧
      ∀ x ∈ l₁, matchesLookup x "x" = false :=
  (getModel_first_disjunctive_match [cexSubstring, cexExact] "x").2 cexSubstring rfl

/-- C4: on every normalized record, `is_free` holds iff both per-token
prices are zero, and `total_per_1m` is exactly the sum of the two derived
per-million figures. -/
theorem formatModelData_isFree_totalPer1M (m : RawModel) :
    ((formatModelData m).is_free = true ↔
      (formatModelData m).pricing.prompt = 0 ∧ (formatModelData m).pricing.completion = 0) ∧
    (formatModelData m).pricing.prompt_per_1m = (formatModelData m).pricing.prompt * 1000000 ∧
    (formatModelData m).pricing.completion_per_1m =
      (formatModelData m).pricing.completion * 1000000 ∧
    (formatModelData m).pricing.total_per_1m =
      (formatModelData m).pricing.prompt_per_1m + (formatModelData m).pricing.completion_per_1m := by
  refine ⟨?_, rfl, rfl, ?_⟩
  · simp [formatModelData, isFree]
  · simp [formatModelData]
    ring

/-- C3 (counterexample): with a per-request fee of 1 and a workload of 10
requests per day (and no `requests_per_month`), the breakdown carries a
derived `monthly_request_cost = 300` that is not part of `total = 10`, so
the total is not the sum of the breakdown components, and the
`monthly_request_cost` component is present although the
`requests_per_month` field is absent. -/
theorem calculateCost_total_cex :
    (calculateCost (formatModelData cexFee) wDaily10).total = 10 ∧
    (calculateCost (formatModelData cexFee) wDaily10).breakdown.monthly_request_cost = some 300 ∧
    breakdownSum (calculateCost (formatModelData cexFee) wDaily10).breakdown = 310 ∧
    wDaily10.requests_per_month = none ∧
    (calculateCost (formatModelData cexFee) wDaily10).total ≠
      breakdownSum (calculateCost (formatModelData cexFee) wDaily10).breakdown := by
  have h : calculateCost (formatModelData cexFee) wDaily10 =
      { total := 10
        breakdown :=
          { prompt_cost := none, completion_cost := none, daily_request_cost := some 10,
            monthly_request_cost := some 300, image_cost := none }
        daily := some 10, monthly := some 300, per_request := some 1 } := by
    simp [calculateCost, formatModelData, cexFee, wDaily10, numTruthy, parsePrice,
      pcPricing, baseModel, jsNumOrUndefined]
    norm_num
  rw [h]
  refine ⟨rfl, rfl, by norm_num [breakdownSum], rfl, by norm_num [breakdownSum]⟩

/-- C3 (amended): `total` is the arithmetic sum of the components the code
adds — prompt, completion, image, the daily request cost, and the monthly
request cost only when `requests_per_month` is truthy; every absent
(falsy) workload field contributes zero and its component is omitted from
the breakdown, except that a truthy `requests_per_day` additionally writes
a derived `monthly_request_cost` (daily × 30) that is not added to
`total`; `per_request` is an omitted field, never an exception, exactly
when neither request count is truthy. -/
theorem calculateCost_components_spec (m : FormattedModel) (w : Workload) :
    (calculateCost m w).total =
      (calculateCost m w).breakdown.prompt_cost.getD 0 +
      (calculateCost m w).breakdown.completion_cost.getD 0 +
      (calculateCost m w).breakdown.daily_request_cost.getD 0 +
      (if numTruthy w.requests_per_month then
        (calculateCost m w).breakdown.monthly_request_cost.getD 0 else 0) +
      (calculateCost m w).breakdown.image_cost.getD 0 ∧
    ((calculateCost m w).breakdown.prompt_cost = none ↔ numTruthy w.prompt_tokens = false) ∧
    ((calculateCost m w).breakdown.completion_cost = none ↔ numTruthy w.completion_tokens = false) ∧
    ((calculateCost m w).breakdown.daily_request_cost = none ↔ numTruthy w.requests_per_day = false) ∧
    ((calculateCost m w).breakdown.image_cost = none ↔ numTruthy w.images = false) ∧
    ((calculateCost m w).breakdown.monthly_request_cost = none ↔
      (numTruthy w.requests_per_day = false ∧ numTruthy w.requests_per_month = false)) ∧
    ((calculateCost m w).per_request = none ↔
      (numTruthy w.requests_per_day = false ∧ numTruthy w.requests_per_month = false)) := by
  by_cases hd : numTruthy w.requests_per_day <;>
    by_cases hm : numTruthy w.requests_per_month <;>
      simp [calculateCost, hd, hm]

/-- C5: the cache contract of `fetchModels`.  (1) Without `forceRefresh`, a
snapshot younger than the TTL is returned as-is with `cached = true` and
`cache_age` the elapsed whole seconds, leaving the state untouched.
(2) On any cache miss (forced, no snapshot, falsy timestamp, or age at
least the TTL) with a successful upstream fetch, the snapshot is replaced
wholesale and returned with `cached = false` and `cache_age = 0`.
(3)/(4) On a cache miss with a non-success status or a transport failure
the call fails and the state is untouched — in particular an expired
snapshot is never served as a fallback. -/
theorem fetchModels_cache_spec :
    (∀ (cache : ModelsCache) (now : ℤ) (up : UpstreamOutcome) (data : List RawModel) (ts : ℤ),
      cache.data = some data → cache.timestamp = some ts → ts ≠ 0 →
      now - ts < CACHE_DURATION_MS →
      fetchModels cache false now up =
        Except.ok ({ models := data, cache_age := Int.fdiv (now - ts) 1000, cached := true },
                   cache)) ∧
    (∀ (cache : ModelsCache) (force : Bool) (now : ℤ) (ms : List RawModel),
      cacheMissOrForced cache force now →
      fetchModels cache force now (UpstreamOutcome.ok ms) =
        Except.ok ({ models := ms, cache_age := 0, cached := false },
                   { data := some ms, timestamp := some now })) ∧
    (∀ (cache : ModelsCache) (force : Bool) (now : ℤ) (s : ℕ),
      cacheMissOrForced cache force now →
      fetchModels cache force now (UpstreamOutcome.httpError s) =
        Except.error (JsError.upstreamError s)) ∧
    (∀ (cache : ModelsCache) (force : Bool) (now : ℤ),
      cacheMissOrForced cache force now →
      fetchModels cache force now UpstreamOutcome.transportError =
        Except.error JsError.transportError) := by
  have hmiss : ∀ (cache : ModelsCache) (force : Bool) (now : ℤ),
      cacheMissOrForced cache force now →
      (if force then (none : Option FetchSuccess)
       else match cache.data, cache.timestamp with
        | some data, some ts =>
            if ts ≠ 0 ∧ now - ts < CACHE_DURATION_MS then
              some { models := data, cache_age := Int.fdiv (now - ts) 1000, cached := true }
            else none
        | _, _ => none) = none := by
    intro cache force now h
    rcases h with hf | hd | ht | ⟨ts, hts, hold⟩
    · simp [hf]
    · cases force <;> simp [hd]
    · cases force <;> simp [ht]
    · cases force with
      | true => simp
      | false =>
          cases hcd : cache.data with
          | none => simp
          | some data =>
              simp only [Bool.false_eq_true, if_false, hts]
              rw [if_neg]
              rcases hold with h0 | hge
              · simp [h0]
              · intro hcon
                exact absurd hcon.2 (not_lt.mpr hge)
  refine ⟨?_, ?_, ?_, ?_⟩
  · intro cache now up data ts hd ht hts hage
    unfold fetchModels
    simp only [hd, ht, Bool.false_eq_true, if_false]
    rw [if_pos ⟨hts, hage⟩]
  · intro cache force now ms h
    unfold fetchModels
    rw [hmiss cache force now h]
  · intro cache force now s h
    unfold fetchModels
    rw [hmiss cache force now h]
  · intro cache force now h
    unfold fetchModels
    rw [hmiss cache force now h]

/-- C5 (witness): with a 4-second-old snapshot the cached data is returned
(age 4 s); with the same snapshot 700 seconds old an upstream failure is a
hard error — the stale snapshot is not served. -/
theorem fetchModels_cache_spec_witness :
    fetchModels { data := some [cexExact], timestamp := some 1000 } false 5000
        (UpstreamOutcome.ok []) =
      Except.ok ({ models := [cexExact], cache_age := Int.fdiv (5000 - 1000) 1000,
                   cached := true },
                 { data := some [cexExact], timestamp := some 1000 }) ∧
    fetchModels { data := some [cexExact], timestamp := some 1000 } false 700000
        (UpstreamOutcome.httpError 503) =
      Except.error (JsError.upstreamError 503) :=
  ⟨fetchModels_cache_spec.1 _ 5000 _ [cexExact] 1000 rfl rfl (by decide) (by decide),
   fetchModels_cache_spec.2.2.1 _ false 700000 503
     (Or.inr (Or.inr (Or.inr ⟨1000, rfl, Or.inr (by decide)⟩)))⟩

/-- Any comparison over at least one record fails at the first pricing-table
row, whose `m.pricing.prompt_per_1m.toFixed(2)` reads a field absent from
raw upstream pricing. -/
theorem generateComparison_cons (m : RawModel) (ms : List RawModel) (w : Option Workload) :
    generateComparison (m :: ms) w = Except.error (JsError.typeError toFixedUndefinedMsg) := rfl

/-- C2 (counterexample): comparing six records does not fail with
`InvalidComparisonSize` — no such validation or error exists in the code
(the failure actually produced is the unrelated per-1M-field TypeError) —
and supplying a single model id does not fail at all: the comparison block
is simply omitted from a successful response. -/
theorem comparison_size_cex :
    sixModels.length = 6 ∧
    generateComparison sixModels none = Except.error (JsError.typeError toFixedUndefinedMsg) ∧
    paramsOneId.model_ids.length = 1 ∧
    (∃ resp, considerModelsCore [cexExact] 0 false paramsOneId = Except.ok resp ∧
      resp.comparison = none) := by
  exact ⟨rfl, rfl, rfl, ⟨_, rfl, rfl⟩⟩

/-- C2 (amended): the code performs no comparison-size validation and has no
`InvalidComparisonSize` failure: with at most one supplied model id
`considerModels` succeeds and omits the comparison block, and the outcome
of `generateComparison` over non-empty record lists is independent of how
many records are supplied (2–5 and 6+ behave identically). -/
theorem comparison_no_size_validation :
    (∀ (rawModels : List RawModel) (cacheAge : ℕ) (cached : Bool) (params : ConsiderParams),
      params.model_ids.length ≤ 1 →
      ∃ resp, considerModelsCore rawModels cacheAge cached params = Except.ok resp ∧
        resp.comparison = none) ∧
    (∀ (ms ms' : List RawModel) (w w' : Option Workload), ms ≠ [] → ms' ≠ [] →
      generateComparison ms w = generateComparison ms' w') := by
  constructor
  · intro rawModels cacheAge cached params h
    unfold considerModelsCore
    rw [if_neg (not_lt.mpr h)]
    exact ⟨_, rfl, rfl⟩
  · intro ms ms' w w' h h'
    obtain ⟨m, ms, rfl⟩ := List.exists_cons_of_ne_nil h
    obtain ⟨m', ms', rfl⟩ := List.exists_cons_of_ne_nil h'
    rw [generateComparison_cons, generateComparison_cons]

/-- C2 (witness): the amended statement applied concretely — one id yields a
successful comparison-free response, and a 2-record and a 6-record
comparison produce the same outcome. -/
theorem comparison_no_size_validation_witness :
    (∃ resp, considerModelsCore [cexExact, cexSubstring] 0 false paramsOneId = Except.ok resp ∧
      resp.comparison = none) ∧
    generateComparison [tieA, tieB] none = generateComparison sixModels (some wDaily10) :=
  ⟨comparison_no_size_validation.1 [cexExact, cexSubstring] 0 false paramsOneId
      (by decide),
   comparison_no_size_validation.2 [tieA, tieB] sixModels none (some wDaily10)
      (by decide) (by decide)⟩

/-- C6: `consider_models` with two supplied model identifiers matching no
record in the snapshot throws — `generateComparison` runs `reduce` with no
initial value over the empty matched set — instead of returning a normal
empty-result response. -/
theorem considerModels_throws_on_unmatched_ids :
    paramsTwoIds.model_ids.length = 2 ∧
    considerModelsCore [cexExact] 0 false paramsTwoIds =
      Except.error (JsError.typeError reduceEmptyMsg) := by
  exact ⟨rfl, rfl⟩

/-- C8: evaluating `generateComparison` at the claim's own scenario — two
records tying on total price — does not report `cheapest = A.id`: the call
throws a TypeError before any summary is computed, because the pricing
table reads per-1M fields that exist only on formatted records while the
function receives raw ones. -/
theorem generateComparison_tie_throws :
    rawTotal tieA = rawTotal tieB ∧
    tieA.id ≠ tieB.id ∧
    generateComparison [tieA, tieB] none =
      Except.error (JsError.typeError toFixedUndefinedMsg) := by
  refine ⟨?_, by decide, rfl⟩
  norm_num [rawTotal, tieA, tieB, pcPricing, baseModel, parsePrice]

/-- C7: for a duplicate-free term list (search terms are an ordered,
deduplicated set), `searchModels` scores each record with the number of
distinct terms occurring case-insensitively in the concatenation of its
name, description and id; zero-scored records are dropped when the term
list is non-empty, the survivors keeping input order (a sublist), and with
no terms every record scores 1 in stable input order. -/
theorem searchModels_score_spec (models : List RawModel) (terms : List String)
    (hnd : terms.Nodup) :
    (terms = [] → searchModels models terms = models.map (fun m => (m, 1))) ∧
    (terms ≠ [] →
      searchModels models terms =
        (models.map (fun m => (m, terms.dedup.countP (fun t => termOccurs m t)))).filter
          (fun p => 0 < p.2) ∧
      List.Sublist ((searchModels models terms).map Prod.fst) models) := by
  constructor
  · intro h; subst h; rfl
  · intro h
    have hde : terms.dedup = terms := List.Nodup.dedup hnd
    have hne : terms.isEmpty = false := by
      cases terms with
      | nil => exact absurd rfl h
      | cons t ts => rfl
    constructor
    · rw [hde]
      simp [searchModels, hne, searchScore]
    · have h1 : List.Sublist
          ((models.map (fun m => (m, searchScore m terms))).filter (fun p => 0 < p.2))
          (models.map (fun m => (m, searchScore m terms))) := List.filter_sublist _
      have h2 := h1.map Prod.fst
      rw [List.map_map] at h2
      have h3 : models.map (Prod.fst ∘ fun m => (m, searchScore m terms)) = models := by
        rw [show (Prod.fst ∘ fun m => (m, searchScore m terms)) = id from rfl, List.map_id]
      rw [h3] at h2
      have h4 : searchModels models terms =
          (models.map (fun m => (m, searchScore m terms))).filter (fun p => 0 < p.2) := by
        simp [searchModels, hne]
      rw [h4]
      exact h2

/-- C7 (witness): the characterization applied to a concrete record and a
concrete one-term list. -/
theorem searchModels_score_spec_witness :
    searchModels [cexSubstring] ["model"] =
      ([cexSubstring].map (fun m =>
        (m, (["model"].dedup).countP (fun t => termOccurs m t)))).filter
        (fun p => 0 < p.2) ∧
    List.Sublist ((searchModels [cexSubstring] ["model"]).map Prod.fst) [cexSubstring] :=
  (searchModels_score_spec [cexSubstring] ["model"] (by decide)).2 (by decide)

/-- Filtering by a key-preimage predicate commutes with `orderedInsert` when
equal-keyed elements always relate, which forces the inserted element to
land before every later element of its own key class. -/
theorem filter_orderedInsert_key {α : Type} (r : α → α → Prop) [DecidableRel r]
    (p : α → Bool) (hr : ∀ a b, p a = true → p b = true → r a b) (x : α) :
    ∀ s : List α, (List.orderedInsert r x s).filter p =
      if p x then x :: s.filter p else s.filter p := by
  intro s
  induction s with
  | nil => simp [List.orderedInsert, List.filter_cons]
  | cons y ys ih =>
      by_cases hxy : r x y
      · rw [List.orderedInsert, if_pos hxy, List.filter_cons]
      · rw [List.orderedInsert, if_neg hxy, List.filter_cons, ih]
        by_cases hpx : p x
        · have hpy : p y = false := by
            cases hy : p y
            · rfl
            · exact absurd (hr x y hpx hy) hxy
          simp [hpx, hpy, List.filter_cons]
        · simp only [hpx, Bool.false_eq_true, if_false, List.filter_cons]

/-- Stability of `insertionSort` under a total preorder induced by a key:
the subsequence of any fixed key class is untouched. -/
theorem filter_insertionSort_key {α : Type} (r : α → α → Prop) [DecidableRel r]
    (p : α → Bool) (hr : ∀ a b, p a = true → p b = true → r a b) :
    ∀ l : List α, (l.insertionSort r).filter p = l.filter p := by
  intro l
  induction l with
  | nil => rfl
  | cons x xs ih =>
      simp only [List.insertionSort]
      rw [filter_orderedInsert_key r p hr x, ih, List.filter_cons]

/-- C9: `sortModels` is idempotent for every criterion (known or not); each
known criterion's sort is stable — the subsequence of records sharing any
fixed value of the ranked key is exactly the input's subsequence — and an
unknown or absent criterion leaves the order untouched. -/
theorem sortModels_idempotent_stable_spec :
    (∀ (l : List RawModel) (c : String), sortModels (sortModels l c) c = sortModels l c) ∧
    (∀ (l : List RawModel) (v : ℚ),
      (sortModels l "price").filter (fun m => decide (rawTotal m = v)) =
        l.filter (fun m => decide (rawTotal m = v))) ∧
    (∀ (l : List RawModel) (v : ℚ),
      (sortModels l "context").filter (fun m => decide (m.context_length = v)) =
        l.filter (fun m => decide (m.context_length = v))) ∧
    (∀ (l : List RawModel) (v : ℚ),
      (sortModels l "created").filter (fun m => decide (m.created = v)) =
        l.filter (fun m => decide (m.created = v))) ∧
    (∀ (l : List RawModel) (v : String),
      (sortModels l "name").filter (fun m => decide (m.name = v)) =
        l.filter (fun m => decide (m.name = v))) ∧
    (∀ (l : List RawModel) (c : String),
      c ≠ "price" → c ≠ "context" → c ≠ "created" → c ≠ "name" → sortModels l c = l) := by
  have eprice : ∀ l : List RawModel,
      sortModels l "price" = l.insertionSort (fun a b => rawTotal a ≤ rawTotal b) :=
    fun _ => rfl
  have econtext : ∀ l : List RawModel,
      sortModels l "context" = l.insertionSort (fun a b => b.context_length ≤ a.context_length) :=
    fun _ => rfl
  have ecreated : ∀ l : List RawModel,
      sortModels l "created" = l.insertionSort (fun a b => b.created ≤ a.created) :=
    fun _ => rfl
  have ename : ∀ l : List RawModel,
      sortModels l "name" = l.insertionSort (fun a b => a.name ≤ b.name) :=
    fun _ => rfl
  have edefault : ∀ (l : List RawModel) (c : String),
      c ≠ "price" → c ≠ "context" → c ≠ "created" → c ≠ "name" → sortModels l c = l := by
    intro l c h1 h2 h3 h4
    unfold sortModels
    rw [if_neg h1, if_neg h2, if_neg h3, if_neg h4]
  haveI i1 : IsTotal RawModel (fun a b => rawTotal a ≤ rawTotal b) :=
    ⟨fun a b => le_total _ _⟩
  haveI i2 : IsTrans RawModel (fun a b => rawTotal a ≤ rawTotal b) :=
    ⟨fun _ _ _ hab hbc => le_trans hab hbc⟩
  haveI i3 : IsTotal RawModel (fun a b => b.context_length ≤ a.context_length) :=
    ⟨fun a b => le_total _ _⟩
  haveI i4 : IsTrans RawModel (fun a b => b.context_length ≤ a.context_length) :=
    ⟨fun _ _ _ hab hbc => le_trans hbc hab⟩
  haveI i5 : IsTotal RawModel (fun a b => b.created ≤ a.created) :=
    ⟨fun a b => le_total _ _⟩
  haveI i6 : IsTrans RawModel (fun a b => b.created ≤ a.created) :=
    ⟨fun _ _ _ hab hbc => le_trans hbc hab⟩
  haveI i7 : IsTotal RawModel (fun a b => a.name ≤ b.name) :=
    ⟨fun a b => le_total _ _⟩
  haveI i8 : IsTrans RawModel (fun a b => a.name ≤ b.name) :=
    ⟨fun _ _ _ hab hbc => le_trans hab hbc⟩
  refine ⟨?_, ?_, ?_, ?_, ?_, edefault⟩
  · intro l c
    by_cases h1 : c = "price"
    · subst h1
      rw [eprice, eprice]
      exact List.Sorted.insertionSort_eq (List.sorted_insertionSort _ l)
    by_cases h2 : c = "context"
    · subst h2
      rw [econtext, econtext]
      exact List.Sorted.insertionSort_eq (List.sorted_insertionSort _ l)
    by_cases h3 : c = "created"
    · subst h3
      rw [ecreated, ecreated]
      exact List.Sorted.insertionSort_eq (List.sorted_insertionSort _ l)
    by_cases h4 : c = "name"
    · subst h4
      rw [ename, ename]
      exact List.Sorted.insertionSort_eq (List.sorted_insertionSort _ l)
    rw [edefault l c h1 h2 h3 h4, edefault l c h1 h2 h3 h4]
  · intro l v
    rw [eprice]
    refine filter_insertionSort_key _ _ ?_ l
    intro a b ha hb
    have ha' := of_decide_eq_true ha
    have hb' := of_decide_eq_true hb
    rw [ha', hb']
  · intro l v
    rw [econtext]
    refine filter_insertionSort_key _ _ ?_ l
    intro a b ha hb
    have ha' := of_decide_eq_true ha
    have hb' := of_decide_eq_true hb
    rw [ha', hb']
  · intro l v
    rw [ecreated]
    refine filter_insertionSort_key _ _ ?_ l
    intro a b ha hb
    have ha' := of_decide_eq_true ha
    have hb' := of_decide_eq_true hb
    rw [ha', hb']
  · intro l v
    rw [ename]
    refine filter_insertionSort_key _ _ ?_ l
    intro a b ha hb
    have ha' := of_decide_eq_true ha
    have hb' := of_decide_eq_true hb
    rw [ha', hb']

/-- C9 (witness): an unknown criterion (`relevance`, the default) leaves a
concrete list untouched, via the specification theorem. -/
theorem sortModels_idempotent_stable_spec_witness :
    sortModels [cexExact] "relevance" = [cexExact] :=
  sortModels_idempotent_stable_spec.2.2.2.2.2 [cexExact] "relevance"
    (by decide) (by decide) (by decide) (by decide)

/-- `takeWhile` runs through a fully-satisfying prefix. -/
theorem takeWhile_all_append {α : Type} (q : α → Bool) :
    ∀ (cs ds : List α), (∀ c ∈ cs, q c = true) →
      (cs ++ ds).takeWhile q = cs ++ ds.takeWhile q := by
  intro cs
  induction cs with
  | nil => intro ds _; rfl
  | cons c cs ih =>
      intro ds hall
      have hc : q c = true := hall c (List.mem_cons_self c cs)
      simp only [List.cons_append, List.takeWhile_cons, hc, if_true]
      rw [ih ds (fun x hx => hall x (List.mem_cons_of_mem c hx))]

/-- `takeWhile` of a fully-satisfying list is the list itself. -/
theorem takeWhile_all {α : Type} (q : α → Bool) (cs : List α)
    (h : ∀ c ∈ cs, q c = true) : cs.takeWhile q = cs := by
  have := takeWhile_all_append q cs [] h
  simpa using this

/-- C10 (counterexample): on an id with no namespace separator,
`extractProvider` returns the whole id, not the empty string the claim
requires. -/
theorem extractProvider_no_separator_cex :
    extractProvider "gpt-4" = "gpt-4" ∧
    ("gpt-4" : String) ≠ "" ∧
    "gpt-4".toList.contains '/' = false := by
  refine ⟨rfl, by decide, by decide⟩

/-- C10 (amended): normalization is total — every optional upstream field
maps to a default, never to a failure: provider is the substring of `id`
before the first `/`, and the WHOLE id (not the empty string) when no
separator occurs; an absent or empty price string is treated as zero,
while present unparsable text (e.g. `"abc"`) parses to NaN — a number
that flows on, not an error; well-formed decimals parse to their value;
and records missing `architecture`, `top_provider`,
`supported_parameters` or prices normalize to empty/absent/zero
defaults. -/
theorem normalize_total_spec :
    (∀ p r : String, (∀ c ∈ p.toList, c ≠ '/') →
      extractProvider (p ++ "/" ++ r) = p) ∧
    (∀ id : String, (∀ c ∈ id.toList, c ≠ '/') → extractProvider id = id) ∧
    parsePriceJs none = some 0 ∧
    parsePriceJs (some "") = some 0 ∧
    parsePriceJs (some "abc") = none ∧
    parsePriceJs (some "free") = none ∧
    parseFloatJs "0.00000175" = some (7 / 4000000) ∧
    (∀ m : RawModel, m.architecture = none →
      (formatModelData m).modality = none ∧
      (formatModelData m).input_modalities = [] ∧
      (formatModelData m).output_modalities = []) ∧
    (∀ m : RawModel, m.top_provider = none →
      (formatModelData m).max_completion_tokens = none ∧
      (formatModelData m).is_moderated = false) ∧
    (∀ m : RawModel, m.supported_parameters = none →
      (formatModelData m).supported_parameters = []) ∧
    (∀ m : RawModel, m.pricing.prompt = none → (formatModelData m).pricing.prompt = 0) := by
  have hq : ∀ (s : String), (∀ c ∈ s.toList, c ≠ '/') →
      ∀ c ∈ s.toList, (c != '/') = true := by
    intro s h c hc
    exact bne_iff_ne.mpr (h c hc)
  refine ⟨?_, ?_, rfl, rfl, rfl, rfl, ?_, ?_, ?_, ?_, ?_⟩
  · intro p r hp
    unfold extractProvider
    have hdata : (p ++ "/" ++ r).toList = p.toList ++ ('/' :: r.toList) := by
      show (p ++ "/" ++ r).data = p.data ++ ('/' :: r.data)
      rw [String.data_append, String.data_append, List.append_assoc]
      rfl
    rw [hdata, takeWhile_all_append _ _ _ (hq p hp)]
    have hslash : (('/' :: r.toList).takeWhile (fun c => c != '/')) = [] := by
      simp [List.takeWhile_cons]
    rw [hslash, List.append_nil]
    show (if p = "" then "" else p) = p
    by_cases hp0 : p = "" <;> simp [hp0]
  · intro id hid
    unfold extractProvider
    rw [takeWhile_all _ _ (hq id hid)]
    show (if id = "" then "" else id) = id
    by_cases h0 : id = "" <;> simp [h0]
  · rw [show parseFloatJs "0.00000175" =
        some ((digitsToNat ['0'] : ℚ) +
          (digitsToNat ['0', '0', '0', '0', '0', '1', '7', '5'] : ℚ) / 10 ^ 8) from rfl]
    norm_num [digitsToNat, show ('0'.toNat : ℕ) = 48 from rfl,
      show ('1'.toNat : ℕ) = 49 from rfl, show ('5'.toNat : ℕ) = 53 from rfl,
      show ('7'.toNat : ℕ) = 55 from rfl]
  · intro m h
    simp [formatModelData, RawModel.inputModalities, h]
  · intro m h
    simp [formatModelData, h, jsNumOrUndefined]
  · intro m h
    simp [formatModelData, h]
  · intro m h
    simp [formatModelData, h, parsePrice]

/-- C10 (witness): the amended provider characterization at a concrete
namespaced id and a concrete separator-free id. -/
theorem normalize_total_spec_witness :
    extractProvider ("openai" ++ "/" ++ "gpt-4") = "openai" ∧
    extractProvider "standalone" = "standalone" :=
  ⟨normalize_total_spec.1 "openai" "gpt-4" (by decide),
   normalize_total_spec.2.1 "standalone" (by decide)⟩

end ModelScout
